import Mathlib

/-!
Verification development for the portfolio page script (`script.js`).

The script is browser-side, event-driven JavaScript.  We shallowly embed
each function the claims refer to:

* `debounce` / `throttle` become explicit event-trace interpreters: the
  wrapper's mutable state (`timeout` handle, `inThrottle` flag) is threaded
  through a list of invocation times, and the output is the list of times
  (and arguments) at which the wrapped callback actually fires.
* DOM-reading functions (`updateActiveLink`, `handleNavClick`,
  `handleScroll`, `toggleButton`) take the relevant document data
  (sections, links, scroll offset, selector lookup) as explicit arguments
  and return the resulting DOM state or effect record.
* `animateCounter` runs `setInterval` steps; we model the interval loop as
  fuel-indexed recursion over an exact rational `current` accumulator
  (`increment = target / 60`) and record every string written to
  `element.textContent`; the last entry is the final display.
* `validateField` / `handleFormSubmit` / `sendEmail` are pure string
  functions once the field values are supplied; the email regular
  expression `^[^\s@]+@[^\s@]+\.[^\s@]+$` is embedded as an explicit
  decomposition matcher, and `encodeURIComponent` as UTF-8
  percent-encoding with the standard unescaped set.
* `showFieldError` / `clearFieldError` act on a field state consisting of
  the `error` class flag and the number of `.field-error` siblings.
-/

namespace Portfolio

/-! ### Utilities: `debounce` (script.js 7-17) and `throttle` (19-28) -/

/-- One pass of the throttled wrapper over the remaining invocation times.
The state is `none` when `inThrottle` is false, and `some d` when
`inThrottle` is true with the pending `setTimeout` due to reset it at time
`d = fireTime + limit`.  A call at time `t ≥ d` sees the reset already
delivered (the timer is due), so it fires again. -/
def throttleRun (limit : ℕ) : List ℕ → Option ℕ → List ℕ
  | [], _ => []
  | t :: ts, none => t :: throttleRun limit ts (some (t + limit))
  | t :: ts, some d =>
    if t < d then throttleRun limit ts (some d)
    else t :: throttleRun limit ts (some (t + limit))

/-- Times at which the underlying callback of `throttle(func, limit)`
fires, given the (time-ordered) invocation times of the wrapper. -/
def throttledFires (limit : ℕ) (calls : List ℕ) : List ℕ :=
  throttleRun limit calls none

/-- One pass of the debounced wrapper over the remaining invocations
(time, argument).  The state holds the pending timer: `some (d, a)` means
`func(a)` is scheduled for time `d`.  A new call first lets a timer that
is already due (`d ≤ t`) deliver, then cancels/reschedules for
`t + wait` with its own argument, exactly as `clearTimeout`/`setTimeout`
do in the source. -/
def debounceRun {α : Type} (wait : ℕ) : List (ℕ × α) → Option (ℕ × α) → List (ℕ × α)
  | [], none => []
  | [], some p => [p]
  | (t, a) :: cs, none => debounceRun wait cs (some (t + wait, a))
  | (t, a) :: cs, some (d, b) =>
    if d ≤ t then (d, b) :: debounceRun wait cs (some (t + wait, a))
    else debounceRun wait cs (some (t + wait, a))

/-- Fire events (time, argument) of the underlying callback of
`debounce(func, wait)`, given the time-ordered wrapper invocations. -/
def debouncedFires {α : Type} (wait : ℕ) (calls : List (ℕ × α)) : List (ℕ × α) :=
  debounceRun wait calls none

/-! ### Navigation controller (script.js 46-147) -/

/-- A `section[id]` element as `updateActiveLink` reads it: its `id`
attribute, `offsetTop` and `offsetHeight`. -/
structure PageSection where
  id : String
  top : ℤ
  height : ℤ
deriving DecidableEq, Repr

/-- A `.nav-link` element: its `href` attribute and whether its class
list currently contains `active`. -/
structure NavLink where
  href : String
  active : Bool
deriving DecidableEq, Repr

/-- The test `scrollPosition >= sectionTop && scrollPosition < sectionTop
+ sectionHeight` from script.js line 137. -/
def sectionMatches (pos : ℤ) (s : PageSection) : Bool :=
  decide (s.top ≤ pos ∧ pos < s.top + s.height)

/-- Model of `Navigation.updateActiveLink` (script.js 128-146): iterates over all
sections; for each section whose span contains `scrollY + 100` it removes
`active` from every link and re-adds it to the link whose `href` equals
`#` + section id.  (Removing from all and conditionally re-adding is the
same as setting each link's `active` to the href test.) -/
def updateActiveLink (sections : List PageSection) (links : List NavLink)
    (scrollY : ℤ) : List NavLink :=
  let pos := scrollY + 100
  sections.foldl
    (fun ls s =>
      if sectionMatches pos s then
        ls.map (fun l => { l with active := l.href == "#" ++ s.id })
      else ls)
    links

/-- Effects of a nav-link click (listener at script.js 69-72 plus
`handleNavClick` 108-121): whether default navigation was prevented,
the `scrollTo` top value if any, and whether the mobile menu was
closed. -/
structure NavClickEffect where
  prevented : Bool
  scrolledTo : Option ℤ
  menuClosed : Bool
deriving DecidableEq, Repr

/-- The click listener plus `Navigation.handleNavClick`: `lookup` is
`document.querySelector` restricted to the href strings, returning the
found element's `offsetTop`. -/
def handleNavClick (lookup : String → Option ℤ) (href : String) : NavClickEffect :=
  { prevented := true
    scrolledTo := (lookup href).map (fun top => top - 80)
    menuClosed := true }

/-- Model of `Navigation.handleScroll` (script.js 123-126): presence of the
`scrolled` class on the navbar after the handler runs
(`classList.toggle('scrolled', scrolled)` sets presence absolutely). -/
def handleScroll (scrollY : ℤ) : Bool :=
  decide (scrollY > 50)

/-- Model of `ScrollToTop.toggleButton` (script.js 475-479): the button's
(opacity, visibility) style pair after the handler runs. -/
def toggleButton (scrollY : ℤ) : String × String :=
  if scrollY > 300 then ("1", "visible") else ("0", "hidden")

/-! ### Counter animation (script.js 224-236) -/

/-- One run of `animateCounter`'s `setInterval` loop, fuel-indexed.
Each tick does `current += target / 60`; if `current >= target` it writes
`target + (target === 3 ? '+' : '')` and stops, otherwise it writes
`Math.floor(current) + (target > 10 ? '+' : '')` and continues.  The
returned list is every string written to `element.textContent`, in
order. -/
def animateCounter : ℕ → ℚ → ℤ → List String
  | 0, _, _ => []
  | fuel + 1, current, target =>
    let next := current + (target : ℚ) / 60
    if (target : ℚ) ≤ next then
      [toString target ++ (if target = 3 then "+" else "")]
    else
      (toString (Rat.floor next) ++ (if 10 < target then "+" else "")) ::
        animateCounter fuel next target

/-- The final text the counter leaves in the element: the last write of a
run with ample fuel (the loop needs at most 60 ticks to reach a
nonnegative target from 0). -/
def counterFinalText (target : ℤ) : Option String :=
  (animateCounter 100 0 target).getLast?

/-! ### Contact form (script.js 256-413) -/

/-- JavaScript's `\s` character class (and the set trimmed by
`String.prototype.trim`): ASCII whitespace, NBSP, the Unicode space
separators, line/paragraph separators and the BOM. -/
def jsWhitespace (c : Char) : Bool :=
  c ∈ [' ', '\t', '\n', '\r', '\x0b', '\x0c',
       '\u00A0', '\u1680', '\u2000', '\u2001', '\u2002', '\u2003',
       '\u2004', '\u2005', '\u2006', '\u2007', '\u2008', '\u2009',
       '\u200A', '\u2028', '\u2029', '\u202F', '\u205F', '\u3000',
       '\uFEFF']

/-- Model of `String.prototype.trim`: drop whitespace from both ends. -/
def jsTrim (s : String) : String :=
  ⟨((s.data.dropWhile jsWhitespace).reverse.dropWhile jsWhitespace).reverse⟩

/-- The character class `[^\s@]` of the email regular expression. -/
def okChar (c : Char) : Bool :=
  !jsWhitespace c && !(c == '@')

/-- All decompositions of a list into a prefix part and the rest, in
order of increasing prefix length. -/
def splits {α : Type} : List α → List (List α × List α)
  | [] => [([], [])]
  | c :: cs => ([], c :: cs) :: (splits cs).map (fun p => (c :: p.1, p.2))

/-- The test `/^[^\s@]+@[^\s@]+\.[^\s@]+$/.test value` (script.js 292):
the whole string decomposes as `a ++ "@" ++ b ++ "." ++ c` with `a`, `b`,
`c` nonempty and made of `[^\s@]` characters. -/
def emailMatches (s : String) : Bool :=
  (splits s.data).any fun p =>
    !p.1.isEmpty && p.1.all okChar &&
      match p.2 with
      | '@' :: rest =>
        (splits rest).any fun q =>
          !q.1.isEmpty && q.1.all okChar &&
            match q.2 with
            | '.' :: tail => !tail.isEmpty && tail.all okChar
            | _ => false
      | _ => false

/-- Model of `ContactForm.validateField` (script.js 283-306), as a pure function
of the field's `type` attribute and raw value.  Returns the
`(isValid, errorMessage)` pair; a valid field has the empty message. -/
def validateField (fieldType : String) (rawValue : String) : Bool × String :=
  let value := jsTrim rawValue
  if value = "" then (false, "This field is required")
  else if fieldType = "email" then
    if emailMatches value then (true, "")
    else (false, "Please enter a valid email address")
  else (true, "")

/-- An `input`/`textarea` element of the form, as the submit handler
reads it: its `type` attribute and current value. -/
structure FormField where
  type : String
  value : String
deriving DecidableEq, Repr

/-- The `Object.fromEntries(new FormData(form))` record: the four named
form controls. -/
structure ContactData where
  name : String
  email : String
  subject : String
  message : String
deriving DecidableEq, Repr

/-- The unescaped set of `encodeURIComponent`:
`A-Z a-z 0-9 - _ . ! ~ * ' ( )`. -/
def uriUnescaped (c : Char) : Bool :=
  ('A' ≤ c && c ≤ 'Z') || ('a' ≤ c && c ≤ 'z') || ('0' ≤ c && c ≤ '9') ||
    c ∈ ['-', '_', '.', '!', '~', '*', '\x27', '(', ')']

/-- Upper-case hexadecimal digit of `n < 16`. -/
def hexDigit (n : ℕ) : Char :=
  if n < 10 then Char.ofNat (48 + n) else Char.ofNat (55 + n)

/-- UTF-8 encoding of a code point, as a list of byte values. -/
def utf8Bytes (n : ℕ) : List ℕ :=
  if n < 0x80 then [n]
  else if n < 0x800 then [0xC0 + n / 64, 0x80 + n % 64]
  else if n < 0x10000 then
    [0xE0 + n / 4096, 0x80 + n / 64 % 64, 0x80 + n % 64]
  else
    [0xF0 + n / 262144, 0x80 + n / 4096 % 64, 0x80 + n / 64 % 64,
     0x80 + n % 64]

/-- Percent-encoding of one character: kept verbatim when unescaped,
otherwise each UTF-8 byte becomes `%XY`. -/
def percentEncodeChar (c : Char) : List Char :=
  if uriUnescaped c then [c]
  else ((utf8Bytes c.toNat).map fun b => ['%', hexDigit (b / 16), hexDigit (b % 16)]).flatten

/-- Model of `encodeURIComponent`. -/
def encodeURIComponent (s : String) : String :=
  ⟨(s.data.map percentEncodeChar).flatten⟩

/-- The template literal of the mail body (script.js 367-374): a leading
newline, the four labelled values, and the trailing newline plus the
four-space indentation before the closing backtick. -/
def emailBody (d : ContactData) : String :=
  "\nName: " ++ d.name ++ "\nEmail: " ++ d.email ++ "\nSubject: " ++
    d.subject ++ "\n\nMessage:\n" ++ d.message ++ "\n    "

/-- The `mailtoLink` string built in `ContactForm.sendEmail`
(script.js 366-376). -/
def mailtoLink (d : ContactData) : String :=
  "mailto:saikumarpolavaram@outlook.com?subject=" ++
    encodeURIComponent ("Portfolio Contact: " ++ d.subject) ++
    "&body=" ++ encodeURIComponent (emailBody d)

/-- Immediate effects of `ContactForm.sendEmail` (script.js 357-379):
the submit button's state and label, and the URI assigned to
`window.location.href`. -/
structure SendEffects where
  buttonDisabled : Bool
  buttonLabel : String
  navigatedTo : String
deriving DecidableEq, Repr

/-- Model of `ContactForm.sendEmail` as its immediate effect record. -/
def sendEmail (d : ContactData) : SendEffects :=
  { buttonDisabled := true
    buttonLabel := "<i class=\"fas fa-spinner fa-spin\"></i> Sending..."
    navigatedTo := mailtoLink d }

/-- Model of `ContactForm.handleFormSubmit` (script.js 338-355): re-validates
every field (first component: the validation result of each field, in
order) and calls `sendEmail` exactly when all of them are valid (second
component: the send effects, `none` when submission is blocked). -/
def handleFormSubmit (fields : List FormField) (d : ContactData) :
    List (Bool × String) × Option SendEffects :=
  let results := fields.map fun f => validateField f.type f.value
  (results, if results.all (·.1) then some (sendEmail d) else none)

/-! ### Field error display (script.js 308-329) -/

/-- The DOM state `showFieldError`/`clearFieldError` manipulate: whether
the field's class list contains `error`, and how many `.field-error`
elements its parent currently holds. -/
structure FieldErrorState where
  errorClass : Bool
  errorElems : ℕ
deriving DecidableEq, Repr

/-- Model of `ContactForm.clearFieldError` (script.js 323-329): removes the
`error` class and removes the first `.field-error` element of the parent
if one exists. -/
def clearFieldError (s : FieldErrorState) : FieldErrorState :=
  { errorClass := false, errorElems := s.errorElems - 1 }

/-- Model of `ContactForm.showFieldError` (script.js 308-321): first clears, then
adds the `error` class and appends one `.field-error` element. -/
def showFieldError (s : FieldErrorState) : FieldErrorState :=
  let s := clearFieldError s
  { errorClass := true, errorElems := s.errorElems + 1 }

/-- The operations that touch a field's error display: a blur/submit
validation with the given type and value, a direct `showFieldError`, or
a direct `clearFieldError`. -/
inductive FieldOp
  | validate (fieldType value : String)
  | showErr
  | clearErr
deriving DecidableEq, Repr

/-- Apply one operation: `validateField` shows the error when invalid
and clears it when valid (script.js 299-303). -/
def applyFieldOp (s : FieldErrorState) : FieldOp → FieldErrorState
  | .validate ty v => if (validateField ty v).1 then clearFieldError s else showFieldError s
  | .showErr => showFieldError s
  | .clearErr => clearFieldError s

/-- Run a sequence of operations from the pristine state (no `error`
class, no `.field-error` element). -/
def runFieldOps (ops : List FieldOp) : FieldErrorState :=
  ops.foldl applyFieldOp ⟨false, 0⟩

/-! ## Theorems -/

/-- Helper for the counter animation: with enough fuel to reach the
target, the last write of the interval loop is
`target + (target === 3 ? '+' : '')`. -/
theorem animateCounter_last_eq (t : ℤ) :
    ∀ (fuel : ℕ) (current : ℚ),
      (t : ℚ) ≤ current + ((fuel : ℚ) + 1) * ((t : ℚ) / 60) →
      (animateCounter (fuel + 1) current t).getLast? =
        some (toString t ++ (if t = 3 then "+" else "")) := by
  intro fuel
  induction fuel with
  | zero =>
    intro current h
    have hle : (t : ℚ) ≤ current + (t : ℚ) / 60 := by
      push_cast at h; linarith
    simp [animateCounter, hle]
  | succ n ih =>
    intro current h
    by_cases hle : (t : ℚ) ≤ current + (t : ℚ) / 60
    · simp [animateCounter, hle]
    · have h2 : (t : ℚ) ≤ (current + (t : ℚ) / 60) + ((n : ℚ) + 1) * ((t : ℚ) / 60) := by
        push_cast at h ⊢; linarith
      have hrec := ih (current + (t : ℚ) / 60) h2
      rw [animateCounter, if_neg hle, List.getLast?_cons, hrec]
      rfl

/-- C1 (corrected): the final write of the counter animation is the exact
target followed by `+` exactly when the target is the literal `3`; in
particular target 3 ends `"3+"`, target 10 ends `"10"`, and target 25
ends `"25"` (the `target > 10` suffix rule governs only the intermediate
writes, not the final one). -/
theorem counter_final_display :
    (∀ t : ℤ, 0 ≤ t →
      counterFinalText t = some (toString t ++ (if t = 3 then "+" else ""))) ∧
    counterFinalText 3 = some "3+" ∧
    counterFinalText 10 = some "10" ∧
    counterFinalText 25 = some "25" := by
  have main : ∀ t : ℤ, 0 ≤ t →
      counterFinalText t = some (toString t ++ (if t = 3 then "+" else "")) := by
    intro t ht
    have ht' : (0 : ℚ) ≤ (t : ℚ) := by exact_mod_cast ht
    have h : (t : ℚ) ≤ 0 + ((99 : ℚ) + 1) * ((t : ℚ) / 60) := by linarith
    exact animateCounter_last_eq t 99 0 h
  refine ⟨main, ?_, ?_, ?_⟩
  · rw [main 3 (by norm_num)]; rfl
  · rw [main 10 (by norm_num)]; rfl
  · rw [main 25 (by norm_num)]; rfl

/-- C1 witness: the general clause applied at target 7. -/
theorem counter_final_display_witness :
    counterFinalText 7 = some (toString (7 : ℤ) ++ (if (7 : ℤ) = 3 then "+" else "")) :=
  counter_final_display.1 7 (by norm_num)

/-- C1 counterexample: the claim says target 25 ends displaying `"25+"`;
the code's final write (`target + (target === 3 ? '+' : '')`,
script.js 230) yields `"25"` instead. -/
theorem counter_final_display_counterexample :
    counterFinalText 25 = some "25" ∧ counterFinalText 25 ≠ some "25+" := by
  have h : counterFinalText 25 =
      some (toString (25 : ℤ) ++ (if (25 : ℤ) = 3 then "+" else "")) := by
    have hq : (25 : ℚ) ≤ 0 + ((99 : ℚ) + 1) * ((25 : ℚ) / 60) := by norm_num
    exact animateCounter_last_eq 25 99 0 hq
  refine ⟨h.trans (by rfl), ?_⟩
  rw [h]
  decide

/-- Helper for C2: `updateActiveLink` is characterized by the last
section (in document order) whose span contains `scrollY + 100`: the
fold rewrites every link's `active` flag once per matching section, so
the last matching section's write survives; with no matching section
the links are returned unchanged. -/
theorem updateActiveLink_eq_lastMatch (y : ℤ) :
    ∀ (sections : List PageSection) (links : List NavLink),
      updateActiveLink sections links y =
        match (sections.filter (sectionMatches (y + 100))).getLast? with
        | none => links
        | some s => links.map (fun l => { l with active := l.href == "#" ++ s.id }) := by
  intro sections
  induction sections with
  | nil => intro links; rfl
  | cons s rest ih =>
    intro links
    by_cases hs : sectionMatches (y + 100) s
    · have step : updateActiveLink (s :: rest) links y =
          updateActiveLink rest (links.map (fun l => { l with active := l.href == "#" ++ s.id })) y := by
        simp [updateActiveLink, hs]
      rw [step, ih]
      rw [List.filter_cons_of_pos hs, List.getLast?_cons]
      cases hrest : (rest.filter (sectionMatches (y + 100))).getLast? with
      | none => simp
      | some s2 =>
        simp only [Option.getD_some]
        rw [List.map_map]
        rfl
    · have step : updateActiveLink (s :: rest) links y = updateActiveLink rest links y := by
        simp [updateActiveLink, hs]
      rw [step, ih, List.filter_cons_of_neg hs]

/-- C2 (corrected): after `updateActiveLink`, if no section's span
contains `scrollY + 100` the links are unchanged; otherwise every link's
`active` flag equals the test "href targets the last (not first)
matching section in document order", so the number of active links
equals the number of links whose href targets that section (exactly one
when exactly one link targets it). -/
theorem updateActiveLink_spec :
    ∀ (sections : List PageSection) (links : List NavLink) (y : ℤ),
      ((sections.filter (sectionMatches (y + 100))) = [] →
        updateActiveLink sections links y = links) ∧
      (∀ s, (sections.filter (sectionMatches (y + 100))).getLast? = some s →
        updateActiveLink sections links y =
          links.map (fun l => { l with active := l.href == "#" ++ s.id }) ∧
        (updateActiveLink sections links y).countP (fun l => l.active) =
          links.countP (fun l => l.href == "#" ++ s.id)) := by
  intro sections links y
  constructor
  · intro hnil
    rw [updateActiveLink_eq_lastMatch y sections links, hnil]
    rfl
  · intro s hs
    have hmap : updateActiveLink sections links y =
        links.map (fun l => { l with active := l.href == "#" ++ s.id }) := by
      rw [updateActiveLink_eq_lastMatch y sections links, hs]
    refine ⟨hmap, ?_⟩
    rw [hmap, List.countP_map]
    rfl

/-- C2 witness: one section spanning the scroll position, two links, of
which exactly the one targeting it becomes active. -/
theorem updateActiveLink_spec_witness :
    updateActiveLink [⟨"home", 0, 500⟩] [⟨"#home", false⟩, ⟨"#about", false⟩] 0 =
      [⟨"#home", true⟩, ⟨"#about", false⟩] := by
  have h := (updateActiveLink_spec [⟨"home", 0, 500⟩]
    [⟨"#home", false⟩, ⟨"#about", false⟩] 0).2 ⟨"home", 0, 500⟩ (by decide)
  rw [h.1]
  decide

/-- C2 counterexample: with two overlapping sections both containing
`scrollY + 100`, the loop's last iteration wins, so the link targeting
the first matching section (`#a`) ends inactive and the one targeting
the last (`#b`) ends active — refuting "the first (in document order)
section wins". -/
theorem updateActiveLink_counterexample :
    sectionMatches (0 + 100) ⟨"a", 0, 200⟩ = true ∧
    sectionMatches (0 + 100) ⟨"b", 50, 200⟩ = true ∧
    updateActiveLink [⟨"a", 0, 200⟩, ⟨"b", 50, 200⟩]
        [⟨"#a", false⟩, ⟨"#b", false⟩] 0 =
      [⟨"#a", false⟩, ⟨"#b", true⟩] := by
  decide

/-- C3 (confirmed): `validateField` returns invalid with the "required"
message exactly when the trimmed value is empty; on a non-empty trimmed
value an email-typed field is valid exactly when the value matches the
email-shape pattern (invalid with the distinct email message otherwise),
and any other field is valid; in particular `"a@b.c"` is valid and
`"not-an-email"` is invalid with the email message. -/
theorem validateField_spec :
    ∀ (ty v : String),
      (validateField ty v = (false, "This field is required") ↔ jsTrim v = "") ∧
      (jsTrim v ≠ "" → ty = "email" →
        validateField ty v =
          (if emailMatches (jsTrim v) then ((true : Bool), "")
           else ((false : Bool), "Please enter a valid email address"))) ∧
      (jsTrim v ≠ "" → ty ≠ "email" → validateField ty v = (true, "")) ∧
      validateField "email" "a@b.c" = (true, "") ∧
      validateField "email" "not-an-email" =
        (false, "Please enter a valid email address") := by
  intro ty v
  refine ⟨?_, ?_, ?_, by decide, by decide⟩
  · by_cases h : jsTrim v = ""
    · simp [validateField, h]
    · by_cases hty : ty = "email"
      · by_cases hm : emailMatches (jsTrim v)
        · simp [validateField, h, hty, hm]
        · simp [validateField, h, hty, hm]
      · simp [validateField, h, hty]
  · intro h hty
    by_cases hm : emailMatches (jsTrim v)
    · simp [validateField, h, hty, hm]
    · simp [validateField, h, hty, hm]
  · intro h hty
    simp [validateField, h, hty]

/-- C3 witness: the non-email clause at a concrete field. -/
theorem validateField_spec_witness :
    validateField "text" "hello" = (true, "") :=
  (validateField_spec "text" "hello").2.2.1 (by decide) (by decide)

/-- C4 (confirmed): `handleFormSubmit` re-validates every field (the
result list is the validation of each field, in order) and produces the
`sendEmail` effects if and only if every field validates; when some
field is invalid the submission is blocked: no navigation and no
button-state change happen (the effect is `none`). -/
theorem handleFormSubmit_gating :
    ∀ (fields : List FormField) (d : ContactData),
      (handleFormSubmit fields d).1 =
        fields.map (fun f => validateField f.type f.value) ∧
      ((handleFormSubmit fields d).2 = some (sendEmail d) ↔
        ∀ f ∈ fields, (validateField f.type f.value).1 = true) ∧
      ((∃ f ∈ fields, (validateField f.type f.value).1 = false) →
        (handleFormSubmit fields d).2 = none) := by
  intro fields d
  refine ⟨rfl, ?_, ?_⟩
  · by_cases hall : (fields.map (fun f => validateField f.type f.value)).all (·.1)
    · rw [List.all_eq_true] at hall
      simp only [handleFormSubmit, List.all_eq_true]
      rw [if_pos (by simpa using hall)]
      simp only [true_iff, Option.some.injEq]
      intro f hf
      exact hall _ (List.mem_map_of_mem _ hf)
    · simp only [handleFormSubmit]
      rw [if_neg (by simpa using hall)]
      simp only [List.all_eq_true] at hall
      push_neg at hall
      obtain ⟨r, hr, hr1⟩ := hall
      obtain ⟨f, hf, rfl⟩ := List.mem_map.mp hr
      constructor
      · intro hcontra
        exact absurd hcontra (by simp)
      · intro hforall
        exact absurd (hforall f hf) (by simpa using hr1)
  · intro ⟨f, hf, hbad⟩
    simp only [handleFormSubmit]
    rw [if_neg]
    simp only [List.all_eq_true]
    intro hcontra
    have := hcontra _ (List.mem_map_of_mem _ hf)
    rw [hbad] at this
    exact absurd this (by simp)

/-- C4 witness: a single invalid (empty email) field blocks the send. -/
theorem handleFormSubmit_gating_witness :
    (handleFormSubmit [⟨"email", ""⟩] ⟨"A", "a@b.com", "Hi", "Test"⟩).2 = none :=
  (handleFormSubmit_gating [⟨"email", ""⟩] ⟨"A", "a@b.com", "Hi", "Test"⟩).2.2
    ⟨⟨"email", ""⟩, by simp, by decide⟩

/-- C5 (confirmed): the URI `sendEmail` navigates to has the fixed
recipient `saikumarpolavaram@outlook.com`, percent-encodes
`"Portfolio Contact: "` followed by the subject as the `subject`
parameter, and percent-encodes as the `body` parameter a template that
contains the four field values in the fixed order name, email, subject,
message. -/
theorem sendEmail_mailto :
    ∀ d : ContactData,
      (sendEmail d).navigatedTo =
        "mailto:saikumarpolavaram@outlook.com?subject=" ++
          encodeURIComponent ("Portfolio Contact: " ++ d.subject) ++
          "&body=" ++ encodeURIComponent (emailBody d) ∧
      ∃ p₀ p₁ p₂ p₃ p₄,
        emailBody d =
          p₀ ++ d.name ++ p₁ ++ d.email ++ p₂ ++ d.subject ++ p₃ ++
            d.message ++ p₄ := by
  intro d
  exact ⟨rfl, "\nName: ", "\nEmail: ", "\nSubject: ", "\n\nMessage:\n", "\n    ", rfl⟩

/-- Helper for the throttle: while the reset timer is still pending,
every call is suppressed and leaves the state unchanged. -/
theorem throttleRun_suppressed (limit : ℕ) :
    ∀ (ts : List ℕ) (d : ℕ), (∀ t ∈ ts, t < d) →
      throttleRun limit ts (some d) = [] := by
  intro ts
  induction ts with
  | nil => intro d _; rfl
  | cons t ts ih =>
    intro d h
    have ht : t < d := h t (by simp)
    rw [throttleRun, if_pos ht]
    exact ih d fun u hu => h u (by simp [hu])

/-- C6 (confirmed): when the throttled wrapper is invoked at time `t₁`
and then arbitrarily many more times strictly before `t₁ + limit`, the
underlying callback fires exactly once, immediately at `t₁`; every later
invocation of that window is suppressed. -/
theorem throttle_single_window :
    ∀ (limit t₁ : ℕ) (ts : List ℕ),
      (∀ t ∈ ts, t₁ ≤ t ∧ t < t₁ + limit) →
      throttledFires limit (t₁ :: ts) = [t₁] := by
  intro limit t₁ ts h
  show t₁ :: throttleRun limit ts (some (t₁ + limit)) = [t₁]
  rw [throttleRun_suppressed limit ts (t₁ + limit) fun t ht => (h t ht).2]

/-- C6 witness: three calls inside one 100-unit window fire once, at the
first call. -/
theorem throttle_single_window_witness :
    throttledFires 100 [5, 30, 99] = [5] :=
  throttle_single_window 100 5 [30, 99] (by decide)

/-- Helper for the debounce: a pending timer scheduled by the call
`(t, a)` survives until the next call when that call comes sooner than
`wait` after `t`, so under the chain condition only the last call's
timer ever delivers. -/
theorem debounceRun_pending {α : Type} (wait : ℕ) :
    ∀ (cs : List (ℕ × α)) (t : ℕ) (a : α),
      List.Chain' (fun p q => p.1 ≤ q.1 ∧ q.1 < p.1 + wait) ((t, a) :: cs) →
      debounceRun wait cs (some (t + wait, a)) =
        [((((t, a) :: cs).getLast (List.cons_ne_nil _ _)).1 + wait,
          (((t, a) :: cs).getLast (List.cons_ne_nil _ _)).2)] := by
  intro cs
  induction cs with
  | nil => intro t a _; rfl
  | cons c cs ih =>
    intro t a h
    obtain ⟨t2, a2⟩ := c
    rw [List.chain'_cons] at h
    obtain ⟨⟨hle, hlt⟩, htail⟩ := h
    have hnot : ¬ t + wait ≤ t2 := by omega
    rw [debounceRun, if_neg hnot, ih t2 a2 htail]
    rw [List.getLast_cons (List.cons_ne_nil _ _)]

/-- C7 (confirmed): when the debounced wrapper is invoked one or more
times with every consecutive pair of invocations closer together than
`wait`, the underlying callback fires exactly once, with the arguments
of the last invocation, at time `wait` after that last invocation. -/
theorem debounce_last_call :
    ∀ {α : Type} (wait : ℕ) (c : ℕ × α) (cs : List (ℕ × α)),
      List.Chain' (fun p q => p.1 ≤ q.1 ∧ q.1 < p.1 + wait) (c :: cs) →
      debouncedFires wait (c :: cs) =
        [(((c :: cs).getLast (List.cons_ne_nil _ _)).1 + wait,
          ((c :: cs).getLast (List.cons_ne_nil _ _)).2)] := by
  intro α wait c cs h
  obtain ⟨t, a⟩ := c
  show debounceRun wait cs (some (t + wait, a)) = _
  exact debounceRun_pending wait cs t a h

/-- C7 witness: three rapid calls with 250-unit quiet period fire once,
450 units in, with the last call's argument. -/
theorem debounce_last_call_witness :
    debouncedFires 250 [(0, 10), (100, 20), (200, 30)] = [(450, 30)] := by
  have h := debounce_last_call 250 ((0 : ℕ), (10 : ℕ)) [(100, 20), (200, 30)]
    (by simp [List.chain'_cons, List.chain'_singleton])
  exact h.trans (by decide)

/-- C8 (confirmed): every nav-link click prevents default navigation and
unconditionally closes the mobile menu; when the href's selector finds
an element the viewport scrolls to its `offsetTop - 80`, and when it
finds none the scroll is silently skipped. -/
theorem handleNavClick_spec :
    ∀ (lookup : String → Option ℤ) (href : String),
      (handleNavClick lookup href).prevented = true ∧
      (handleNavClick lookup href).menuClosed = true ∧
      (∀ top, lookup href = some top →
        (handleNavClick lookup href).scrolledTo = some (top - 80)) ∧
      (lookup href = none → (handleNavClick lookup href).scrolledTo = none) := by
  intro lookup href
  refine ⟨rfl, rfl, ?_, ?_⟩
  · intro top h
    simp [handleNavClick, h]
  · intro h
    simp [handleNavClick, h]

/-- C8 witness: a found target at offset 500 scrolls to 420. -/
theorem handleNavClick_spec_witness :
    (handleNavClick (fun s => if s = "#about" then some 500 else none)
      "#about").scrolledTo = some 420 := by
  have h := (handleNavClick_spec (fun s => if s = "#about" then some 500 else none)
    "#about").2.2.1 500 (by decide)
  exact h.trans (by decide)

/-- C9 (confirmed): after the scroll handlers run at offset `y`, the nav
bar carries `scrolled` exactly when `y > 50` and the scroll-to-top
button is visible exactly when `y > 300` (hidden otherwise); in
particular at `y = 400` the button is visible and the class present,
and at `y = 0` neither is. -/
theorem scroll_thresholds :
    ∀ y : ℤ,
      (handleScroll y = true ↔ y > 50) ∧
      (toggleButton y = ("1", "visible") ↔ y > 300) ∧
      (¬ y > 300 → toggleButton y = ("0", "hidden")) ∧
      handleScroll 400 = true ∧ toggleButton 400 = ("1", "visible") ∧
      handleScroll 0 = false ∧ toggleButton 0 = ("0", "hidden") := by
  intro y
  refine ⟨by simp [handleScroll], ?_, ?_, by decide, by decide, by decide, by decide⟩
  · by_cases h : y > 300
    · simp [toggleButton, h]
    · simp [toggleButton, h]
  · intro h
    simp [toggleButton, h]

/-- C9 witness: at offset 200 the button stays hidden. -/
theorem scroll_thresholds_witness :
    toggleButton 200 = ("0", "hidden") :=
  (scroll_thresholds 200).2.2.1 (by decide)

/-- Helper for the field-error invariant: from either reachable state
(pristine, or error class with one error element), every operation lands
back in one of the two. -/
theorem applyFieldOp_reachable (s : FieldErrorState) (op : FieldOp)
    (h : s = ⟨false, 0⟩ ∨ s = ⟨true, 1⟩) :
    applyFieldOp s op = ⟨false, 0⟩ ∨ applyFieldOp s op = ⟨true, 1⟩ := by
  rcases h with h | h <;> subst h <;>
    cases op with
    | validate ty v =>
      rcases Bool.eq_false_or_eq_true (validateField ty v).1 with hb | hb <;>
        simp [applyFieldOp, hb, clearFieldError, showFieldError]
    | showErr => simp [applyFieldOp, clearFieldError, showFieldError]
    | clearErr => simp [applyFieldOp, clearFieldError]

/-- Helper: every operation sequence from the pristine state ends in one
of the two reachable states. -/
theorem runFieldOps_reachable :
    ∀ ops : List FieldOp,
      runFieldOps ops = ⟨false, 0⟩ ∨ runFieldOps ops = ⟨true, 1⟩ := by
  have gen : ∀ (ops : List FieldOp) (s : FieldErrorState),
      (s = ⟨false, 0⟩ ∨ s = ⟨true, 1⟩) →
      (ops.foldl applyFieldOp s = ⟨false, 0⟩ ∨ ops.foldl applyFieldOp s = ⟨true, 1⟩) := by
    intro ops
    induction ops with
    | nil => intro s h; simpa using h
    | cons op ops ih =>
      intro s h
      exact ih (applyFieldOp s op) (applyFieldOp_reachable s op h)
  intro ops
  exact gen ops ⟨false, 0⟩ (Or.inl rfl)

/-- C10 (confirmed): after any finite sequence of `validateField`,
`showFieldError` and `clearFieldError` operations starting from a field
with no error state, the parent holds at most one `.field-error`
element, and exactly one precisely when the field carries the `error`
class. -/
theorem fieldError_single :
    ∀ ops : List FieldOp,
      (runFieldOps ops).errorElems ≤ 1 ∧
      ((runFieldOps ops).errorElems = 1 ↔ (runFieldOps ops).errorClass = true) := by
  intro ops
  rcases runFieldOps_reachable ops with h | h <;> rw [h] <;> exact ⟨by decide, by decide⟩

end Portfolio
